import Mathlib

namespace FocusMode

/-- Classification result of `classifyContent` (content.js lines 514-532):
`'blocked'`, `'educational'`, or `'neutral'`. -/
inductive Classification
  | blocked
  | educational
  | neutral
deriving Repr, DecidableEq

/-- `sub` is a leading segment of `l` (helper for substring containment). -/
def charsStart : List Char → List Char → Bool
  | _, [] => true
  | [], _ :: _ => false
  | c :: cs, d :: ds => c == d && charsStart cs ds

/-- `sub` occurs contiguously somewhere inside `l`. -/
def charsHaveSublist (sub : List Char) : List Char → Bool
  | [] => sub.isEmpty
  | c :: rest => charsStart (c :: rest) sub || charsHaveSublist sub rest

/-- JavaScript `String.prototype.includes`: substring containment,
modelled on the character lists of the two strings. -/
def jsIncludes (s sub : String) : Bool :=
  charsHaveSublist sub.data s.data

/-- JavaScript `String.prototype.toLowerCase`, modelled character-wise. -/
def jsToLower (s : String) : String :=
  ⟨s.data.map Char.toLower⟩

/-- Case-insensitive containment: the code lowercases both the scanned text
(`text.toLowerCase()`) and each keyword (`keyword.toLowerCase()`) before the
`includes` check. -/
def containsCI (text kw : String) : Bool :=
  jsIncludes (jsToLower text) (jsToLower kw)

/-- `classifyContent` (content.js lines 514-532): lowercase the text, scan the
blocked keyword list first (any hit returns `'blocked'`), then the allowed
list (any hit returns `'educational'`), else `'neutral'`.  The early-return
`for` loops are modelled with `List.any`. -/
def classifyContent (blockedKeywords allowedKeywords : List String)
    (text : String) : Classification :=
  if blockedKeywords.any (fun kw => jsIncludes (jsToLower text) (jsToLower kw)) then
    .blocked
  else if allowedKeywords.any (fun kw => jsIncludes (jsToLower text) (jsToLower kw)) then
    .educational
  else
    .neutral

/-- A video item element matched by `SELECTORS.videoRenderer`.  `title` is the
text of the `#video-title` child when that element exists (`none` when the
title element is absent); `channel` likewise for the channel-name element.
`hasThumbnail` records whether a `ytd-thumbnail`/`#thumbnail` child exists.
`processed` models the `data-focus-processed="true"` marker, `hidden` the
`focus-hidden` class, `badge` the presence of a `.focus-edu-badge` child. -/
structure VideoItem where
  title : Option String := none
  channel : Option String := none
  hasThumbnail : Bool := true
  processed : Bool := false
  hidden : Bool := false
  badge : Bool := false
deriving Repr, DecidableEq

/-- A Shorts-like element matched by the structural selectors
(`SELECTORS.shorts`, `shortsTab`, `shortsSection`).  `text` is whatever text
the element carries (never inspected by the code); `hidden` models the
`focus-hidden` class. -/
structure ShortsEl where
  text : String := ""
  hidden : Bool := false
deriving Repr, DecidableEq

/-- The part of the page the content script manipulates: the video-renderer
elements, the Shorts-like elements, whether the injected
`#focus-mode-dashboard` overlay is visible, and whether the home feed region
carries the `focus-hidden` class. -/
structure PageState where
  videos : List VideoItem := []
  shorts : List ShortsEl := []
  dashboardVisible : Bool := false
  homeFeedHidden : Bool := false
deriving Repr, DecidableEq

/-- `hideVideo` (content.js 537-539): add the `focus-hidden` class. -/
def hideVideo (v : VideoItem) : VideoItem :=
  { v with hidden := true }

/-- `markAsEducational` (content.js 544-555): skip if a badge already exists;
otherwise attach a badge to the thumbnail child when one exists. -/
def markAsEducational (v : VideoItem) : VideoItem :=
  if v.badge then v
  else if v.hasThumbnail then { v with badge := true }
  else v

/-- The `` `${title} ${channel}` `` template of `filterVideos` (content.js
490-492): title text lowercased, a space, then the channel text lowercased
(empty string when the channel element is absent). -/
def combinedText (titleText : String) (channelText : Option String) : String :=
  jsToLower titleText ++ " " ++
    (match channelText with
     | some c => jsToLower c
     | none => "")

/-- The classification step of the `videos.forEach` callback (content.js
494-502), applied to an item whose processed marker was just set: classify
the combined title+channel text, then hide (counting 1), badge, or leave the
item untouched. -/
def classifyAndApply (blockedKeywords allowedKeywords : List String)
    (t : String) (v : VideoItem) : VideoItem × Nat :=
  match classifyContent blockedKeywords allowedKeywords
      (combinedText t v.channel) with
  | .blocked => (hideVideo { v with processed := true }, 1)
  | .educational => (markAsEducational { v with processed := true }, 0)
  | .neutral => ({ v with processed := true }, 0)

/-- The body of the `videos.forEach` callback in `filterVideos` (content.js
480-503): skip an already-processed item; otherwise set the processed marker
first, return early if the title element is absent, else classify the
combined title+channel text and hide (counting 1) / badge / leave the item.
Returns the updated item and its contribution to `blockedCount`. -/
def processVideo (blockedKeywords allowedKeywords : List String)
    (v : VideoItem) : VideoItem × Nat :=
  if v.processed then (v, 0)
  else
    match v.title with
    | none => ({ v with processed := true }, 0)
    | some t => classifyAndApply blockedKeywords allowedKeywords t v

/-- `filterVideos` (content.js 476-509): process every video-renderer element
and accumulate the local `blockedCount` for this pass. -/
def filterVideos (blockedKeywords allowedKeywords : List String)
    (videos : List VideoItem) : List VideoItem × Nat :=
  (videos.map (fun v => (processVideo blockedKeywords allowedKeywords v).1),
   (videos.map (fun v => (processVideo blockedKeywords allowedKeywords v).2)).sum)

/-- `hideShorts` (content.js 462-471): add the `focus-hidden` class to every
Shorts-like element, unconditionally. -/
def hideShorts (p : PageState) : PageState :=
  { p with shorts := p.shorts.map (fun s => { s with hidden := true }) }

/-- `hideFocusDashboard` (content.js 425-438): add the `hidden` class to the
dashboard; when focus mode is off, also remove `focus-hidden` from the home
feed region. -/
def hideFocusDashboard (enabled : Bool) (p : PageState) : PageState :=
  { p with
    dashboardVisible := false,
    homeFeedHidden := if !enabled then false else p.homeFeedHidden }

/-- `showFocusDashboard` (content.js 340-420): make the dashboard visible and
add `focus-hidden` to the home feed region. -/
def showFocusDashboard (p : PageState) : PageState :=
  { p with dashboardVisible := true, homeFeedHidden := true }

/-- The browser location as the script observes it: `window.location.pathname`
plus whether a `ytd-browse[page-subtype="home"]` element is present. -/
structure Location where
  pathname : String := "/"
  hasHomeBrowse : Bool := false
deriving Repr, DecidableEq

/-- The `isHome` test of `checkForHomepage` (content.js 326-328). -/
def isHomeSurface (loc : Location) : Bool :=
  loc.pathname == "/" || loc.pathname == "/feed/subscriptions" ||
    loc.hasHomeBrowse

/-- `checkForHomepage` (content.js 325-335): show the dashboard exactly when
on the home surface with focus mode enabled, otherwise hide it. -/
def checkForHomepage (loc : Location) (enabled : Bool) (p : PageState) :
    PageState :=
  if isHomeSurface loc && enabled then showFocusDashboard p
  else hideFocusDashboard enabled p

/-- The effect of `removeAllFilters` (content.js 615-624) on one video item:
the `focus-hidden` class removed, the `.focus-edu-badge` child removed, the
`data-focus-processed` marker stripped. -/
def resetVideo (v : VideoItem) : VideoItem :=
  { v with hidden := false, badge := false, processed := false }

/-- `removeAllFilters` (content.js 615-624): remove the `focus-hidden` class
everywhere (videos, Shorts, home feed), remove every `.focus-edu-badge`
element, strip every `data-focus-processed` marker, then hide the dashboard.
It is only ever called with focus mode disabled, so the trailing
`hideFocusDashboard` also un-hides the home feed. -/
def removeAllFilters (p : PageState) : PageState :=
  { videos := p.videos.map resetVideo,
    shorts := p.shorts.map (fun s => { s with hidden := false }),
    dashboardVisible := false,
    homeFeedHidden := false }

/-- The processed-marker reset of `onNavigate` (content.js 633-635): remove
`data-focus-processed` from every element that carries it.  (The subsequent
delayed `scanAndFilter`/`checkForHomepage` call is modelled by composing with
those functions.) -/
def onNavigateClear (p : PageState) : PageState :=
  { p with videos := p.videos.map (fun v => { v with processed := false }) }

/-- The mutable module-level clock baseline `lastTrackTime` (content.js 575),
in milliseconds. -/
structure TrackState where
  lastTrackTime : Nat
deriving Repr, DecidableEq

/-- `trackEducationalTime` (content.js 576-595): only on a pathname containing
`/watch`; read the primary heading (return early when absent); if its
lowercased text contains some allowed keyword, compute
`elapsed = Math.floor((now - lastTrackTime) / 60000)`; when `elapsed >= 1`
report `elapsed` minutes (the `updateEducationalTime(elapsed)` call) and set
`lastTrackTime = now`.  Returns the reported minutes (`none` when no report
is made) and the new clock baseline. -/
def trackEducationalTime (loc : Location) (heading : Option String)
    (allowedKeywords : List String) (now : Nat) (tr : TrackState) :
    Option Nat × TrackState :=
  if !(jsIncludes loc.pathname "/watch") then (none, tr)
  else
    match heading with
    | none => (none, tr)
    | some h =>
        let title := jsToLower h
        let isEducational :=
          allowedKeywords.any (fun kw => jsIncludes title (jsToLower kw))
        if isEducational then
          let elapsed := (now - tr.lastTrackTime) / 60000
          if elapsed ≥ 1 then (some elapsed, { lastTrackTime := now })
          else (none, tr)
        else (none, tr)

/-- The `stats` sub-object of the persisted settings.  Every field may be
absent in storage (JavaScript `undefined`), hence `Option`. -/
structure Stats where
  educationalMinutes : Option Nat := none
  blockedCount : Option Nat := none
  focusStreak : Option Nat := none
  lastActiveDate : Option String := none
deriving Repr, DecidableEq

/-- The persisted `focusSettings` object.  Any field may be absent in
storage, hence every field is an `Option`; the code performs no per-field
default-merging on load. -/
structure StoredSettings where
  focusModeEnabled : Option Bool := none
  allowedKeywords : Option (List String) := none
  blockedKeywords : Option (List String) := none
  stats : Option Stats := none
deriving Repr, DecidableEq

/-- `getDefaultSettings` (content.js 93-107): the hardcoded baseline settings
object.  It carries the two keyword lists and the enabled flag; it has no
`stats` member. -/
def getDefaultSettings : StoredSettings :=
  { focusModeEnabled := some true,
    allowedKeywords := some
      ["tutorial", "course", "lecture", "coding", "programming",
       "java", "python", "javascript", "react", "dsa", "algorithms",
       "system design", "ai", "machine learning", "web development",
       "interview", "leetcode"],
    blockedKeywords := some
      ["prank", "vlog", "roast", "shorts", "gaming", "reaction",
       "comedy", "movie", "music video", "tiktok", "funny", "meme"],
    stats := none }

/-- The outcome of the `chrome.storage.sync.get(['focusSettings'])` call:
either the read throws (`error`), or it returns with `focusSettings` absent
(`ok none`) or present (`ok (some s)`). -/
def StoreRead := Except Unit (Option StoredSettings)

/-- `loadSettings` (content.js 80-88): on a successful read use
`result.focusSettings || getDefaultSettings()`; on a thrown error, catch and
fall back to `getDefaultSettings()`.  Total: it never propagates the
exception. -/
def loadSettings (read : StoreRead) : StoredSettings :=
  match read with
  | .error _ => getDefaultSettings
  | .ok none => getDefaultSettings
  | .ok (some s) => s

/-- `updateBlockedCount` (content.js 560-570), successful-path body: re-read
the persisted settings (`stored`, falling back to the in-memory `settings`
when absent), default a missing `stats` member to `{}`, add `count` to
`stats.blockedCount || 0`, and write the whole object back.  Returns the
object written. -/
def updateBlockedCount (stored : Option StoredSettings)
    (inMemory : StoredSettings) (count : Nat) : StoredSettings :=
  let currentSettings := stored.getD inMemory
  let st := currentSettings.stats.getD {}
  { currentSettings with
    stats := some { st with blockedCount := some (st.blockedCount.getD 0 + count) } }

/-- `updateEducationalTime` (content.js 600-610), successful-path body:
same shape as `updateBlockedCount` but adding to `stats.educationalMinutes`. -/
def updateEducationalTime (stored : Option StoredSettings)
    (inMemory : StoredSettings) (minutes : Nat) : StoredSettings :=
  let currentSettings := stored.getD inMemory
  let st := currentSettings.stats.getD {}
  { currentSettings with
    stats := some
      { st with educationalMinutes := some (st.educationalMinutes.getD 0 + minutes) } }

/-- The store write issued at the end of `filterVideos` (content.js 505-508):
`updateBlockedCount` is called only when the accumulated count of the pass is
nonzero; `none` models the absence of any write. -/
def blockedCountWrite (stored : Option StoredSettings)
    (inMemory : StoredSettings) (count : Nat) : Option StoredSettings :=
  if count > 0 then some (updateBlockedCount stored inMemory count) else none

/-- Result of one `scanAndFilter` invocation: the new page state, the local
`blockedCount` accumulated by `filterVideos`, the minutes reported by
`trackEducationalTime` (if any), and the new clock baseline. -/
structure ScanResult where
  page : PageState
  blockedCount : Nat
  reportedMinutes : Option Nat
  track : TrackState
deriving Repr, DecidableEq

/-- `scanAndFilter` (content.js 443-457): when focus mode is disabled, run
`removeAllFilters` and return (no hiding, badging, counting or tracking);
otherwise `hideShorts`, then `filterVideos`, then `trackEducationalTime`. -/
def scanAndFilter (enabled : Bool) (blockedKeywords allowedKeywords : List String)
    (loc : Location) (heading : Option String) (now : Nat)
    (p : PageState) (tr : TrackState) : ScanResult :=
  if !enabled then
    { page := removeAllFilters p, blockedCount := 0,
      reportedMinutes := none, track := tr }
  else
    let p1 := hideShorts p
    let fv := filterVideos blockedKeywords allowedKeywords p1.videos
    let te := trackEducationalTime loc heading allowedKeywords now tr
    { page := { p1 with videos := fv.1 }, blockedCount := fv.2,
      reportedMinutes := te.1, track := te.2 }

/-- `handleMessage` for a `SETTINGS_UPDATED` message (content.js 678-692):
replace the in-memory settings; if the new settings enable focus mode, run
`scanAndFilter` then `checkForHomepage`; otherwise run `removeAllFilters`. -/
def handleMessage (enabled : Bool) (blockedKeywords allowedKeywords : List String)
    (loc : Location) (heading : Option String) (now : Nat)
    (p : PageState) (tr : TrackState) : ScanResult :=
  if enabled then
    let r := scanAndFilter true blockedKeywords allowedKeywords loc heading now p tr
    { r with page := checkForHomepage loc true r.page }
  else
    { page := removeAllFilters p, blockedCount := 0,
      reportedMinutes := none, track := tr }

/-! ### Helper lemmas -/

theorem processVideo_of_processed {B A : List String} {v : VideoItem}
    (h : v.processed = true) : processVideo B A v = (v, 0) := by
  simp [processVideo, h]

theorem markAsEducational_processed (v : VideoItem) :
    (markAsEducational v).processed = v.processed := by
  by_cases hb : v.badge <;> by_cases ht : v.hasThumbnail <;>
    simp [markAsEducational, hb, ht]

theorem processVideo_fst_processed (B A : List String) (v : VideoItem) :
    (processVideo B A v).1.processed = true := by
  by_cases hp : v.processed
  · simp [processVideo, hp]
  · cases hT : v.title with
    | none => simp [processVideo, hp, hT]
    | some t =>
        cases hc : classifyContent B A (combinedText t v.channel)
        all_goals
          simp only [processVideo, classifyAndApply, hp, hT, hc, hideVideo,
            markAsEducational, if_false, Bool.false_eq_true]
        all_goals
          first
            | rfl
            | (split
               case _ => rfl
               case _ => split <;> rfl)

/-! ### C1 -/

/-- C1: `classifyContent` returns `blocked` as soon as the text contains any
blocked keyword (case-insensitive substring containment, blocked list checked
first), otherwise `educational` when the text contains some allowed keyword,
otherwise `neutral`. -/
theorem classifyContent_spec (B A : List String) (t : String) :
    ((∃ b ∈ B, containsCI t b = true) → classifyContent B A t = .blocked) ∧
    ((∀ b ∈ B, containsCI t b = false) → (∃ a ∈ A, containsCI t a = true) →
      classifyContent B A t = .educational) ∧
    ((∀ b ∈ B, containsCI t b = false) → (∀ a ∈ A, containsCI t a = false) →
      classifyContent B A t = .neutral) := by
  have hB : B.any (fun kw => jsIncludes (jsToLower t) (jsToLower kw)) = true ↔
      ∃ b ∈ B, containsCI t b = true := by
    simp [List.any_eq_true, containsCI]
  have hA : A.any (fun kw => jsIncludes (jsToLower t) (jsToLower kw)) = true ↔
      ∃ a ∈ A, containsCI t a = true := by
    simp [List.any_eq_true, containsCI]
  refine ⟨fun hex => ?_, fun hnb hex => ?_, fun hnb hna => ?_⟩
  · rw [classifyContent, if_pos (hB.mpr hex)]
  · have hBf : B.any (fun kw => jsIncludes (jsToLower t) (jsToLower kw)) = false := by
      by_contra hc
      rcases hB.mp (by revert hc; cases B.any (fun kw => jsIncludes (jsToLower t) (jsToLower kw)) <;> simp)
        with ⟨b, hbmem, hbtrue⟩
      rw [hnb b hbmem] at hbtrue
      exact Bool.false_ne_true hbtrue
    rw [classifyContent]
    rw [if_neg (by simp [hBf]), if_pos (hA.mpr hex)]
  · have hBf : B.any (fun kw => jsIncludes (jsToLower t) (jsToLower kw)) = false := by
      by_contra hc
      rcases hB.mp (by revert hc; cases B.any (fun kw => jsIncludes (jsToLower t) (jsToLower kw)) <;> simp)
        with ⟨b, hbmem, hbtrue⟩
      rw [hnb b hbmem] at hbtrue
      exact Bool.false_ne_true hbtrue
    have hAf : A.any (fun kw => jsIncludes (jsToLower t) (jsToLower kw)) = false := by
      by_contra hc
      rcases hA.mp (by revert hc; cases A.any (fun kw => jsIncludes (jsToLower t) (jsToLower kw)) <;> simp)
        with ⟨a, hamem, hatrue⟩
      rw [hna a hamem] at hatrue
      exact Bool.false_ne_true hatrue
    rw [classifyContent]
    rw [if_neg (by simp [hBf]), if_neg (by simp [hAf])]

/-- C1 witness: the spec's own scenarios, settled by applying
`classifyContent_spec` at concrete inputs. -/
theorem classifyContent_spec_witness :
    classifyContent ["prank"] ["python"] "Python Prank Compilation" = .blocked ∧
    classifyContent ["prank"] ["python"] "Intro to Python Tutorial" = .educational ∧
    classifyContent ["prank"] ["python"] "Daily News Update" = .neutral :=
  ⟨(classifyContent_spec ["prank"] ["python"] "Python Prank Compilation").1
      ⟨"prank", by decide, by decide⟩,
   (classifyContent_spec ["prank"] ["python"] "Intro to Python Tutorial").2.1
      (by decide) ⟨"python", by decide, by decide⟩,
   (classifyContent_spec ["prank"] ["python"] "Daily News Update").2.2
      (by decide) (by decide)⟩

/-! ### C2 -/

theorem filterVideos_skips_processed (B A : List String) (vs : List VideoItem)
    (h : ∀ v ∈ vs, v.processed = true) :
    filterVideos B A vs = (vs, 0) := by
  induction vs with
  | nil => rfl
  | cons x xs ih =>
      have hx : processVideo B A x = (x, 0) :=
        processVideo_of_processed (h x (List.mem_cons_self x xs))
      have hxs := ih (fun v hv => h v (List.mem_cons_of_mem _ hv))
      simp only [filterVideos, List.map_cons, List.sum_cons, hx,
        Prod.mk.injEq] at hxs ⊢
      exact ⟨by rw [hxs.1], by rw [hxs.2]⟩

theorem filterVideos_fst_all_processed (B A : List String) (vs : List VideoItem) :
    ∀ v ∈ (filterVideos B A vs).1, v.processed = true := by
  intro v hv
  simp only [filterVideos, List.mem_map] at hv
  rcases hv with ⟨w, _, hw⟩
  rw [← hw]
  exact processVideo_fst_processed B A w

/-- C2: a `filterVideos` pass over an item set in which every item already
carries the processed marker changes nothing — no hide, no badge, a zero
blocked count and hence no store write — so a second pass after a first one
leaves the visual state and the persisted stats identical to one pass. -/
theorem filterVideos_idempotent (B A : List String) (vs : List VideoItem)
    (stored : Option StoredSettings) (inMemory : StoredSettings)
    (h : ∀ v ∈ vs, v.processed = true) :
    filterVideos B A vs = (vs, 0) ∧
    blockedCountWrite stored inMemory (filterVideos B A vs).2 = none ∧
    filterVideos B A (filterVideos B A vs).1 = ((filterVideos B A vs).1, 0) := by
  refine ⟨filterVideos_skips_processed B A vs h, ?_, ?_⟩
  · rw [filterVideos_skips_processed B A vs h]
    simp [blockedCountWrite]
  · exact filterVideos_skips_processed B A _ (filterVideos_fst_all_processed B A vs)

/-- C2 witness: `filterVideos_idempotent` applied to a concrete fully
processed two-item page. -/
theorem filterVideos_idempotent_witness :
    filterVideos ["gaming"] ["python"]
        [{ title := some "Gaming Stream", processed := true, hidden := true },
         { title := some "Python Tutorial", processed := true, badge := true }] =
      ([{ title := some "Gaming Stream", processed := true, hidden := true },
        { title := some "Python Tutorial", processed := true, badge := true }], 0) ∧
    blockedCountWrite none getDefaultSettings
        (filterVideos ["gaming"] ["python"]
          [{ title := some "Gaming Stream", processed := true, hidden := true },
           { title := some "Python Tutorial", processed := true, badge := true }]).2 = none ∧
    filterVideos ["gaming"] ["python"]
        (filterVideos ["gaming"] ["python"]
          [{ title := some "Gaming Stream", processed := true, hidden := true },
           { title := some "Python Tutorial", processed := true, badge := true }]).1 =
      ((filterVideos ["gaming"] ["python"]
          [{ title := some "Gaming Stream", processed := true, hidden := true },
           { title := some "Python Tutorial", processed := true, badge := true }]).1, 0) :=
  filterVideos_idempotent ["gaming"] ["python"]
    [{ title := some "Gaming Stream", processed := true, hidden := true },
     { title := some "Python Tutorial", processed := true, badge := true }]
    none getDefaultSettings (by decide)

/-! ### C3 -/

theorem resetVideo_processVideo (B A : List String) (v : VideoItem)
    (hp : v.processed = false) (hh : v.hidden = false) (hb : v.badge = false) :
    resetVideo (processVideo B A v).1 = v := by
  obtain ⟨title, channel, thumb, proc, hid, bad⟩ := v
  dsimp only at hp hh hb
  subst hp; subst hh; subst hb
  cases hT : title with
  | none => simp [processVideo, hT, resetVideo]
  | some t =>
      cases hc : classifyContent B A (combinedText t channel)
      all_goals
        simp [processVideo, classifyAndApply, hT, hc, resetVideo, hideVideo,
          markAsEducational]
      all_goals split <;> simp [resetVideo]

theorem filterVideos_map_resetVideo (B A : List String) (vs : List VideoItem)
    (h : ∀ v ∈ vs, v.processed = false ∧ v.hidden = false ∧ v.badge = false) :
    (filterVideos B A vs).1.map resetVideo = vs := by
  induction vs with
  | nil => rfl
  | cons x xs ih =>
      obtain ⟨hp, hh, hb⟩ := h x (List.mem_cons_self x xs)
      have hx := resetVideo_processVideo B A x hp hh hb
      have hxs := ih (fun v hv => h v (List.mem_cons_of_mem _ hv))
      simp only [filterVideos, List.map_cons] at hxs ⊢
      rw [hx, hxs]

/-- C3: `removeAllFilters` un-hides every element, removes every badge,
strips every processed marker and hides the dashboard; consequently a fresh
`filterVideos` pass over the reset item set reproduces exactly the
pre-disable scan result (same hidden/badged/plain classification, same
blocked count), with no stale badge or hidden flag surviving. -/
theorem removeAllFilters_roundtrip (B A : List String) (p : PageState)
    (vs : List VideoItem)
    (h : ∀ v ∈ vs, v.processed = false ∧ v.hidden = false ∧ v.badge = false) :
    (∀ v ∈ (removeAllFilters p).videos,
        v.processed = false ∧ v.hidden = false ∧ v.badge = false) ∧
    (∀ s ∈ (removeAllFilters p).shorts, s.hidden = false) ∧
    (removeAllFilters p).dashboardVisible = false ∧
    filterVideos B A ((filterVideos B A vs).1.map resetVideo) =
      filterVideos B A vs := by
  refine ⟨?_, ?_, rfl, ?_⟩
  · intro v hv
    simp only [removeAllFilters, List.mem_map] at hv
    rcases hv with ⟨w, _, hw⟩
    rw [← hw]
    simp [resetVideo]
  · intro s hs
    simp only [removeAllFilters, List.mem_map] at hs
    rcases hs with ⟨w, _, hw⟩
    rw [← hw]
  · rw [filterVideos_map_resetVideo B A vs h]

/-- C3 witness: `removeAllFilters_roundtrip` applied to a concrete page with
one blocked, one educational and one neutral item. -/
theorem removeAllFilters_roundtrip_witness :
    (∀ v ∈ (removeAllFilters
        { videos := [{ title := some "Funny Prank", processed := true, hidden := true }],
          shorts := [{ text := "short", hidden := true }],
          dashboardVisible := true, homeFeedHidden := true }).videos,
        v.processed = false ∧ v.hidden = false ∧ v.badge = false) ∧
    (∀ s ∈ (removeAllFilters
        { videos := [{ title := some "Funny Prank", processed := true, hidden := true }],
          shorts := [{ text := "short", hidden := true }],
          dashboardVisible := true, homeFeedHidden := true }).shorts, s.hidden = false) ∧
    (removeAllFilters
        { videos := [{ title := some "Funny Prank", processed := true, hidden := true }],
          shorts := [{ text := "short", hidden := true }],
          dashboardVisible := true, homeFeedHidden := true }).dashboardVisible = false ∧
    filterVideos ["prank"] ["python"]
        ((filterVideos ["prank"] ["python"]
          [{ title := some "Funny Prank" }, { title := some "Python Tutorial" },
           { title := some "Daily News" }]).1.map resetVideo) =
      filterVideos ["prank"] ["python"]
        [{ title := some "Funny Prank" }, { title := some "Python Tutorial" },
         { title := some "Daily News" }] :=
  removeAllFilters_roundtrip ["prank"] ["python"]
    { videos := [{ title := some "Funny Prank", processed := true, hidden := true }],
      shorts := [{ text := "short", hidden := true }],
      dashboardVisible := true, homeFeedHidden := true }
    [{ title := some "Funny Prank" }, { title := some "Python Tutorial" },
     { title := some "Daily News" }] (by decide)

/-! ### C4 -/

/-- C4: with `focusModeEnabled = false` a scan pass only removes existing
effects — it equals `removeAllFilters` with a zero blocked count and no time
report, and afterwards no element is hidden or badged — and the dashboard
overlay is never shown: `checkForHomepage` displays it exactly when the
location is the home surface AND focus mode is enabled. -/
theorem disabled_scan_inert (B A : List String) (loc : Location)
    (heading : Option String) (now : Nat) (p : PageState) (tr : TrackState)
    (enabled : Bool) :
    scanAndFilter false B A loc heading now p tr =
      { page := removeAllFilters p, blockedCount := 0,
        reportedMinutes := none, track := tr } ∧
    ((removeAllFilters p).videos.all (fun v => !v.hidden && !v.badge)) = true ∧
    (checkForHomepage loc false p).dashboardVisible = false ∧
    (checkForHomepage loc enabled p).dashboardVisible =
      (isHomeSurface loc && enabled) := by
  refine ⟨rfl, ?_, ?_, ?_⟩
  · simp [removeAllFilters, List.all_eq_true, resetVideo]
  · simp [checkForHomepage, hideFocusDashboard]
  · cases h : isHomeSurface loc && enabled <;>
      simp [checkForHomepage, h, showFocusDashboard, hideFocusDashboard]

/-! ### C5 -/

/-- C5 counterexample: a processed-to-unscanned reset is NOT triggered only
by a navigation event.  Handling a `SETTINGS_UPDATED` message that disables
focus mode (the `removeAllFilters` path of `handleMessage`) also strips the
processed marker: on a page whose single item carries the marker, the
non-navigation message handler leaves every item unprocessed. -/
theorem processed_reset_not_only_navigation :
    ([({ title := some "Funny Prank", processed := true, hidden := true } :
        VideoItem)].all (fun v => v.processed)) = true ∧
    ((handleMessage false ["prank"] ["python"] { pathname := "/results" } none 0
        { videos := [{ title := some "Funny Prank", processed := true,
                       hidden := true }] }
        ⟨0⟩).page.videos.all (fun v => !v.processed)) = true := by
  constructor
  · rfl
  · rfl

theorem onNavigateClear_unprocessed (p : PageState) :
    ∀ v ∈ (onNavigateClear p).videos, v.processed = false := by
  intro v hv
  simp only [onNavigateClear, List.mem_map] at hv
  rcases hv with ⟨w, _, hw⟩
  rw [← hw]

/-- C5 (amended): the navigation handler clears the processed marker from
every element that carries it, and a scan pass never skips an unprocessed
item — `processVideo` on a marker-free item with a title runs the full
classification (`classifyAndApply`) rather than the skip branch — so an item
visually identical before and after navigation is reclassified by the next
pass.  (Besides navigation, the disable-time full reset `removeAllFilters`
is the one other operation that strips the marker.) -/
theorem onNavigate_reclassifies (B A : List String) (p : PageState)
    (v : VideoItem) (t : String)
    (hv : v.processed = false) (ht : v.title = some t) :
    (∀ w ∈ (onNavigateClear p).videos, w.processed = false) ∧
    processVideo B A v = classifyAndApply B A t v := by
  refine ⟨onNavigateClear_unprocessed p, ?_⟩
  simp [processVideo, hv, ht]

/-- C5 witness: `onNavigate_reclassifies` at a concrete page and item. -/
theorem onNavigate_reclassifies_witness :
    (∀ w ∈ (onNavigateClear
        { videos := [{ title := some "Python Tutorial", processed := true,
                       badge := true }] }).videos, w.processed = false) ∧
    processVideo ["prank"] ["python"] { title := some "Python Tutorial" } =
      classifyAndApply ["prank"] ["python"] "Python Tutorial"
        { title := some "Python Tutorial" } :=
  onNavigate_reclassifies ["prank"] ["python"]
    { videos := [{ title := some "Python Tutorial", processed := true,
                   badge := true }] }
    { title := some "Python Tutorial" } "Python Tutorial" rfl rfl

/-! ### C6 -/

/-- C6 counterexample: on a watch page with heading
`"Learn React in 30 Minutes"`, `allowed = ["react"]`, baseline 0 and
`now = 90000` ms (e = 90000, floor(e/60000) = 1), the code reports 1 minute
but sets the baseline to 90000 — it advances by the full elapsed 90000 ms,
not by the reported 1 * 60000 = 60000 ms the claim requires, so the 30-second
remainder is dropped, not carried forward. -/
theorem trackEducationalTime_drops_remainder :
    (trackEducationalTime { pathname := "/watch" }
        (some "Learn React in 30 Minutes") ["react"] 90000 ⟨0⟩).1 = some 1 ∧
    (trackEducationalTime { pathname := "/watch" }
        (some "Learn React in 30 Minutes") ["react"] 90000 ⟨0⟩).2.lastTrackTime
      = 90000 ∧
    (90000 : Nat) ≠ 0 + 1 * 60000 := by
  refine ⟨by decide, by decide, by decide⟩

/-- C6 (amended): on a watch surface whose heading matches an allowed
keyword, with e milliseconds elapsed since the baseline and
floor(e/60000) ≥ 1, the routine reports exactly floor(e/60000) minutes and
sets the internal clock baseline to the current time — i.e. the baseline
advances by the full e, so the sub-minute fractional remainder of e is
dropped, not carried forward. -/
theorem trackEducationalTime_reports (loc : Location) (h : String)
    (A : List String) (now : Nat) (tr : TrackState)
    (hwatch : jsIncludes loc.pathname "/watch" = true)
    (hedu : A.any (fun kw => jsIncludes (jsToLower h) (jsToLower kw)) = true)
    (helapsed : 1 ≤ (now - tr.lastTrackTime) / 60000) :
    trackEducationalTime loc (some h) A now tr =
      (some ((now - tr.lastTrackTime) / 60000), ⟨now⟩) := by
  simp [trackEducationalTime, hwatch, hedu, helapsed]

/-- C6 witness: `trackEducationalTime_reports` at the counterexample's
input, where it reports `90000 / 60000 = 1` minute and sets the baseline
to 90000. -/
theorem trackEducationalTime_reports_witness :
    trackEducationalTime { pathname := "/watch" }
        (some "Learn React in 30 Minutes") ["react"] 90000 ⟨0⟩ =
      (some ((90000 - (0 : Nat)) / 60000), ⟨90000⟩) :=
  trackEducationalTime_reports { pathname := "/watch" }
    "Learn React in 30 Minutes" ["react"] 90000 ⟨0⟩
    (by decide) (by decide) (by decide)

/-! ### C7 -/

/-- C7: when a scan pass accumulates a nonzero blocked count c, it issues one
additive store update: the persisted `stats.blockedCount` becomes its old
value (default 0) plus c while `focusModeEnabled`, the two keyword lists and
every other stats field are kept from the stored object; when c = 0 no store
write is made at all. -/
theorem blockedCount_additive_update (B A : List String) (vs : List VideoItem)
    (s inMemory : StoredSettings)
    (hpos : 0 < (filterVideos B A vs).2) :
    blockedCountWrite (some s) inMemory (filterVideos B A vs).2 =
      some (updateBlockedCount (some s) inMemory (filterVideos B A vs).2) ∧
    (updateBlockedCount (some s) inMemory (filterVideos B A vs).2).focusModeEnabled
      = s.focusModeEnabled ∧
    (updateBlockedCount (some s) inMemory (filterVideos B A vs).2).allowedKeywords
      = s.allowedKeywords ∧
    (updateBlockedCount (some s) inMemory (filterVideos B A vs).2).blockedKeywords
      = s.blockedKeywords ∧
    (updateBlockedCount (some s) inMemory (filterVideos B A vs).2).stats =
      some { s.stats.getD {} with
             blockedCount := some ((s.stats.getD {}).blockedCount.getD 0 +
               (filterVideos B A vs).2) } ∧
    (∀ (st : Option StoredSettings) (m : StoredSettings),
        blockedCountWrite st m 0 = none) := by
  refine ⟨?_, rfl, rfl, rfl, rfl, ?_⟩
  · simp [blockedCountWrite, hpos]
  · intro st m
    simp [blockedCountWrite]

/-- C7 witness: `blockedCount_additive_update` on a one-item page whose item
is blocked (count 1), against a stored object that already counts 5 blocked
items and 12 educational minutes. -/
theorem blockedCount_additive_update_witness :
    blockedCountWrite
        (some { focusModeEnabled := some true,
                allowedKeywords := some ["python"],
                blockedKeywords := some ["prank"],
                stats := some { educationalMinutes := some 12,
                                blockedCount := some 5 } })
        getDefaultSettings
        (filterVideos ["prank"] ["python"] [{ title := some "Funny Prank" }]).2 =
      some (updateBlockedCount
        (some { focusModeEnabled := some true,
                allowedKeywords := some ["python"],
                blockedKeywords := some ["prank"],
                stats := some { educationalMinutes := some 12,
                                blockedCount := some 5 } })
        getDefaultSettings
        (filterVideos ["prank"] ["python"] [{ title := some "Funny Prank" }]).2) ∧
    (updateBlockedCount
        (some { focusModeEnabled := some true,
                allowedKeywords := some ["python"],
                blockedKeywords := some ["prank"],
                stats := some { educationalMinutes := some 12,
                                blockedCount := some 5 } })
        getDefaultSettings
        (filterVideos ["prank"] ["python"] [{ title := some "Funny Prank" }]).2).focusModeEnabled
      = some true ∧
    (updateBlockedCount
        (some { focusModeEnabled := some true,
                allowedKeywords := some ["python"],
                blockedKeywords := some ["prank"],
                stats := some { educationalMinutes := some 12,
                                blockedCount := some 5 } })
        getDefaultSettings
        (filterVideos ["prank"] ["python"] [{ title := some "Funny Prank" }]).2).allowedKeywords
      = some ["python"] ∧
    (updateBlockedCount
        (some { focusModeEnabled := some true,
                allowedKeywords := some ["python"],
                blockedKeywords := some ["prank"],
                stats := some { educationalMinutes := some 12,
                                blockedCount := some 5 } })
        getDefaultSettings
        (filterVideos ["prank"] ["python"] [{ title := some "Funny Prank" }]).2).blockedKeywords
      = some ["prank"] ∧
    (updateBlockedCount
        (some { focusModeEnabled := some true,
                allowedKeywords := some ["python"],
                blockedKeywords := some ["prank"],
                stats := some { educationalMinutes := some 12,
                                blockedCount := some 5 } })
        getDefaultSettings
        (filterVideos ["prank"] ["python"] [{ title := some "Funny Prank" }]).2).stats =
      some { educationalMinutes := some 12,
             blockedCount := some (5 +
               (filterVideos ["prank"] ["python"] [{ title := some "Funny Prank" }]).2) } ∧
    (∀ (st : Option StoredSettings) (m : StoredSettings),
        blockedCountWrite st m 0 = none) :=
  blockedCount_additive_update ["prank"] ["python"] [{ title := some "Funny Prank" }]
    { focusModeEnabled := some true,
      allowedKeywords := some ["python"],
      blockedKeywords := some ["prank"],
      stats := some { educationalMinutes := some 12, blockedCount := some 5 } }
    getDefaultSettings (by decide)

/-! ### C8 -/

/-- C8 counterexample: loading is NOT default-merging per field.  A stored
settings object that is present but lacks its keyword lists is returned
as-is by `loadSettings` (`result.focusSettings || getDefaultSettings()` is
all-or-nothing), so its missing `allowedKeywords` stays absent instead of
becoming the baseline list. -/
theorem loadSettings_no_field_merge :
    (loadSettings (.ok (some { focusModeEnabled := some true,
                               blockedKeywords := some ["prank"] }))).allowedKeywords
      = none ∧
    (loadSettings (.ok (some { focusModeEnabled := some true,
                               blockedKeywords := some ["prank"] }))).allowedKeywords
      ≠ getDefaultSettings.allowedKeywords := by
  refine ⟨rfl, by decide⟩

/-- C8 (amended): `loadSettings` is total and never propagates a store
error: a thrown read and an absent stored object both fall back to the
hardcoded baseline `getDefaultSettings`, while a present stored object is
used exactly as-is (no per-field merging, so missing keyword lists stay
missing); missing stats fields are tolerated at stat-update time, where a
settings object without `stats` behaves as if its counters were zero. -/
theorem loadSettings_fallback (s : StoredSettings)
    (inMemory : StoredSettings) (c : Nat) :
    loadSettings (.error ()) = getDefaultSettings ∧
    loadSettings (.ok none) = getDefaultSettings ∧
    loadSettings (.ok (some s)) = s ∧
    (updateBlockedCount (some { s with stats := none }) inMemory c).stats =
      some { blockedCount := some c } := by
  refine ⟨rfl, rfl, rfl, ?_⟩
  simp [updateBlockedCount]

/-! ### C9 -/

/-- C9: a scan pass with focus mode enabled hides every Shorts-like element:
the resulting shorts list is the input list with the `focus-hidden` class
added everywhere, for every choice of keyword lists and whatever text the
elements carry (`hideShorts` runs before keyword classification and never
consults either). -/
theorem hideShorts_structural (B A : List String) (loc : Location)
    (heading : Option String) (now : Nat) (p : PageState) (tr : TrackState) :
    (scanAndFilter true B A loc heading now p tr).page.shorts =
      p.shorts.map (fun s => { s with hidden := true }) ∧
    ((scanAndFilter true B A loc heading now p tr).page.shorts.all
      (fun s => s.hidden)) = true := by
  constructor
  · rfl
  · simp [scanAndFilter, hideShorts, List.all_eq_true]

/-! ### C10 -/

/-- C10: an item whose title element is absent is marked processed (before
any text extraction) and returned untouched — not hidden, badged or counted —
and every later pass skips it unchanged even if a title has become available,
because the processed marker set on the first pass short-circuits the
callback; only once the marker is stripped (navigation or disable reset)
does a pass classify the now-titled item. -/
theorem missing_title_processed_and_skipped (B A B2 A2 : List String)
    (v : VideoItem) (t : String)
    (hv : v.processed = false) (ht : v.title = none) :
    processVideo B A v = ({ v with processed := true }, 0) ∧
    processVideo B2 A2 { v with processed := true, title := some t } =
      ({ v with processed := true, title := some t }, 0) ∧
    processVideo B2 A2 { v with processed := false, title := some t } =
      classifyAndApply B2 A2 t { v with processed := false, title := some t } := by
  refine ⟨?_, ?_, ?_⟩
  · simp [processVideo, hv, ht]
  · simp [processVideo]
  · simp [processVideo]

/-- C10 witness: `missing_title_processed_and_skipped` for a concrete
titleless item that later gains the title `"Funny Prank"`; even with
`"prank"` blocked, the later pass leaves it alone. -/
theorem missing_title_processed_and_skipped_witness :
    processVideo ["prank"] ["python"] ({} : VideoItem) =
      ({ ({} : VideoItem) with processed := true }, 0) ∧
    processVideo ["prank"] ["python"]
        { ({} : VideoItem) with processed := true, title := some "Funny Prank" } =
      ({ ({} : VideoItem) with processed := true, title := some "Funny Prank" }, 0) ∧
    processVideo ["prank"] ["python"]
        { ({} : VideoItem) with processed := false, title := some "Funny Prank" } =
      classifyAndApply ["prank"] ["python"] "Funny Prank"
        { ({} : VideoItem) with processed := false, title := some "Funny Prank" } :=
  missing_title_processed_and_skipped ["prank"] ["python"] ["prank"] ["python"]
    ({} : VideoItem) "Funny Prank" rfl rfl

end FocusMode
